import Mathlib

/-
Verification of the connection-lifecycle guardian of pycirculate
(src/examples/rest/rest.py, class RESTAnovaController).

The guardian wraps an exclusive transport (the base AnovaController, which
lives outside src/ and is therefore modelled from the spec as an opaque
collaborator with open/close/send and an openness flag).  Time is modelled
as natural-number seconds; datetime.datetime.now() becomes an explicit
`now` argument.  threading.Timer objects are modelled as records carrying
their scheduled fire time and the argument their callback would pass to
`timeout` (the source arms `Timer(TIMEOUT_HEARTBEAT, lambda: self.timeout())`,
so the stored argument is always `none`).
-/

namespace PyCirculate

/-- Transport-level events, in the order the guardian performs them:
an attempt to open, a close, or a command send. -/
inductive Ev where
  | tOpen : Ev
  | tClose : Ev
  | tSend : String → Ev
  deriving Repr, DecidableEq

/-- Errors surfaced by the transport (spec taxonomy, section 7). -/
inductive Err where
  | ConnectionFailed : Err
  | CommandFailed : Err
  deriving Repr, DecidableEq

/-- A scheduled threading.Timer: its identity, the absolute time at which it
fires, and the `seconds` argument its callback passes to `timeout`.  The
source always arms `lambda: self.timeout()`, i.e. `secondsArg = none`. -/
structure TimerRec where
  id : Nat
  fireAt : Nat
  secondsArg : Option Nat
  deriving Repr, DecidableEq

/-- Modelled from the spec: the base AnovaController / bluetooth transport is
not under src/, so it is an oracle: whether `open()` succeeds, whether a
command round-trip succeeds, the response function, and whether a failed
send leaves the transport flag open ("the transport is left in whatever
state the failure produced"). -/
structure Transport where
  openOk : Bool
  sendOk : Bool
  resp : String → String
  failLeavesOpen : Bool

/-- State of a RESTAnovaController instance.
`timeout_timer` is the `_timeout_timer` attribute (`none` = never assigned,
so touching it raises AttributeError); `live_timers` are the timers that are
scheduled and have neither fired nor been cancelled. -/
structure Ctrl where
  is_connected : Bool
  last_command_at : Nat
  timeout_timer : Option Nat
  live_timers : List TimerRec
  next_timer_id : Nat
  deriving Repr, DecidableEq

/-- `TIMEOUT = 1 * 60` from the source. -/
def TIMEOUT : Nat := 1 * 60

/-- `TIMEOUT_HEARTBEAT = 20` from the source. -/
def TIMEOUT_HEARTBEAT : Nat := 20

/-- `if not seconds: seconds = self.TIMEOUT` — Python falsiness replaces
both `None` and `0` by the default. -/
def effSeconds : Option Nat → Nat
  | none => TIMEOUT
  | some 0 => TIMEOUT
  | some (n + 1) => n + 1

/-- `close()`: calls the transport close (modelled from the spec as
best-effort: it clears the openness flag), then
`try: self._timeout_timer.cancel() except AttributeError: pass`.
Cancelling a timer that already fired or was cancelled is a no-op, which the
filter realises; an unset attribute raises AttributeError, which is
swallowed. -/
def close (s : Ctrl) : Ctrl × List Ev :=
  let s1 : Ctrl := { s with is_connected := false }
  match s1.timeout_timer with
  | none => (s1, [Ev.tClose])
  | some i =>
      ({ s1 with live_timers := s1.live_timers.filter (fun r => r.id ≠ i) },
       [Ev.tClose])

/-- `timeout(self, seconds=None)`: if now is strictly past
`last_command_at + seconds`, close; otherwise arm a fresh
`Timer(TIMEOUT_HEARTBEAT, lambda: self.timeout())` and store it in
`_timeout_timer` (superseding the attribute, without cancelling whatever it
held). -/
def timeout (s : Ctrl) (now : Nat) (seconds : Option Nat) : Ctrl × List Ev :=
  let secs := effSeconds seconds
  let timeout_at := s.last_command_at + secs
  if now > timeout_at then
    close s
  else
    ({ s with
        timeout_timer := some s.next_timer_id,
        live_timers :=
          ⟨s.next_timer_id, now + TIMEOUT_HEARTBEAT, none⟩ :: s.live_timers,
        next_timer_id := s.next_timer_id + 1 },
     [])

/-- `connect()`: calls the transport open (modelled from the spec: on success
the openness flag becomes true, on failure the exception propagates and the
guardian state is untouched), then sets `last_command_at = now` and calls
`timeout()`. -/
def connect (s : Ctrl) (now : Nat) (tr : Transport) :
    Ctrl × List Ev × Except Err Unit :=
  if tr.openOk then
    let s1 : Ctrl := { s with is_connected := true, last_command_at := now }
    let p := timeout s1 now none
    (p.1, Ev.tOpen :: p.2, Except.ok ())
  else
    (s, [Ev.tOpen], Except.error Err.ConnectionFailed)

/-- `_send_command(self, command)`: if not connected, connect (propagating a
connect failure); then set `last_command_at = now`; then forward to the
transport send (modelled from the spec: returns the transport response
verbatim on success, raises CommandFailed on failure, leaving the openness
flag in whatever state the failure produced). -/
def send_command (s : Ctrl) (now : Nat) (cmd : String) (tr : Transport) :
    Ctrl × List Ev × Except Err String :=
  let step1 : Ctrl × List Ev × Except Err Unit :=
    if s.is_connected then (s, [], Except.ok ()) else connect s now tr
  match step1 with
  | (s1, evs, Except.error e) => (s1, evs, Except.error e)
  | (s1, evs, Except.ok _) =>
      let s2 : Ctrl := { s1 with last_command_at := now }
      if tr.sendOk then
        (s2, evs ++ [Ev.tSend cmd], Except.ok (tr.resp cmd))
      else
        ({ s2 with is_connected := tr.failLeavesOpen },
         evs ++ [Ev.tSend cmd], Except.error Err.CommandFailed)

/-- `__init__(self, mac_address, connect=True, ...)`: sets
`last_command_at = now` first, then the base-class init (modelled from the
spec) starts disconnected and, when `connect=True`, calls the (overridden)
`connect()`. -/
def mkController (now : Nat) (connectArg : Bool) (tr : Transport) :
    Ctrl × List Ev × Except Err Unit :=
  let s0 : Ctrl :=
    { is_connected := false, last_command_at := now,
      timeout_timer := none, live_timers := [], next_timer_id := 0 }
  if connectArg then connect s0 now tr else (s0, [], Except.ok ())

/-- The timer currently held by the `_timeout_timer` attribute, provided it
is still scheduled. -/
def armedTimer (s : Ctrl) : Option TimerRec :=
  match s.timeout_timer with
  | none => none
  | some i => s.live_timers.find? (fun r => r.id == i)

/-- A threading.Timer fires: it leaves the live set, then its callback runs
`timeout` at the scheduled time with the stored argument. -/
def fireTimerRec (s : Ctrl) (r : TimerRec) : Ctrl × List Ev :=
  let s1 : Ctrl := { s with live_timers := s.live_timers.filter (fun q => q.id ≠ r.id) }
  timeout s1 r.fireAt r.secondsArg

/-- Runs the armed idle-check chain with no foreground activity, up to `fuel`
fires.  Returns the time of the fire that closed the transport, if any. -/
def runIdleChain (s : Ctrl) : Nat → Option Nat
  | 0 => none
  | fuel + 1 =>
      match armedTimer s with
      | none => none
      | some r =>
          let s1 := (fireTimerRec s r).1
          if s1.is_connected then runIdleChain s1 fuel else some r.fireAt

/-- Folds a burst of `_send_command` calls (time, command) over a state. -/
def sendMany (s : Ctrl) (tr : Transport) : List (Nat × String) → Ctrl
  | [] => s
  | (t, c) :: rest => sendMany (send_command s t c tr).1 tr rest

/-- A transport whose open and send both succeed and that echoes commands. -/
def trOK : Transport :=
  { openOk := true, sendOk := true, resp := id, failLeavesOpen := true }

/-- A transport whose open fails. -/
def trOpenFail : Transport :=
  { openOk := false, sendOk := true, resp := id, failLeavesOpen := true }

/-- A transport that opens but whose command round-trip fails. -/
def trSendFail : Transport :=
  { openOk := true, sendOk := false, resp := id, failLeavesOpen := true }

/-- A freshly constructed, never-connected guardian (time 0). -/
def sClosed0 : Ctrl :=
  { is_connected := false, last_command_at := 0, timeout_timer := none,
    live_timers := [], next_timer_id := 0 }

/-- A guardian that connected at time 0: open, idle-check armed for t = 20. -/
def sOpen0 : Ctrl :=
  { is_connected := true, last_command_at := 0, timeout_timer := some 0,
    live_timers := [⟨0, 20, none⟩], next_timer_id := 1 }

/-- Python falsiness only discounts `0`: a nonzero `seconds` argument is
taken as given. -/
theorem effSeconds_pos (k : Nat) (hk : k ≠ 0) : effSeconds (some k) = k := by
  cases k with
  | zero => exact absurd rfl hk
  | succ n => rfl

/-- A burst of successful sends on a connected guardian only rewrites
`last_command_at`: connectivity, the scheduled timers and the
`_timeout_timer` attribute are untouched. -/
theorem sendMany_preserves (tr : Transport) (hS : tr.sendOk = true) :
    ∀ (cmds : List (Nat × String)) (s : Ctrl), s.is_connected = true →
      (sendMany s tr cmds).is_connected = true ∧
      (sendMany s tr cmds).live_timers = s.live_timers ∧
      (sendMany s tr cmds).timeout_timer = s.timeout_timer := by
  intro cmds
  induction cmds with
  | nil => intro s hc; exact ⟨hc, rfl, rfl⟩
  | cons p rest ih =>
      intro s hc
      obtain ⟨t, c⟩ := p
      have hstep : (send_command s t c tr).1 = { s with last_command_at := t } := by
        simp [send_command, hc, hS]
      have := ih { s with last_command_at := t } hc
      simpa [sendMany, hstep] using this

/-- C1: with a working transport, `_send_command` on a disconnected guardian
performs exactly one transport open followed by the command send, on an
already-connected guardian it performs no open at all, and in both cases the
transport's response is returned verbatim. -/
theorem send_lazy_open (s : Ctrl) (now : Nat) (cmd : String) (tr : Transport)
    (hO : tr.openOk = true) (hS : tr.sendOk = true) :
    (s.is_connected = false →
      (send_command s now cmd tr).2.1 = [Ev.tOpen, Ev.tSend cmd]) ∧
    (s.is_connected = true →
      (send_command s now cmd tr).2.1 = [Ev.tSend cmd]) ∧
    (send_command s now cmd tr).2.2 = Except.ok (tr.resp cmd) := by
  cases hc : s.is_connected <;>
    simp [send_command, connect, timeout, effSeconds, hO, hS, hc]

/-- C1 witness: a concrete send on a closed guardian opens once, then sends. -/
theorem send_lazy_open_witness :
    trOK.openOk = true ∧ trOK.sendOk = true ∧ sClosed0.is_connected = false ∧
    (send_command sClosed0 0 "X" trOK).2.1 = [Ev.tOpen, Ev.tSend "X"] ∧
    (send_command sClosed0 0 "X" trOK).2.2 = Except.ok "X" :=
  ⟨rfl, rfl, rfl, (send_lazy_open sClosed0 0 "X" trOK rfl rfl).1 rfl,
   (send_lazy_open sClosed0 0 "X" trOK rfl rfl).2.2⟩

/-- C2: starting from a send at time `t0` on a fresh guardian with no further
activity, the first three idle-check fires (at `t0+20`, `t0+40`, `t0+60`)
close nothing — so the transport is never closed strictly before
`t0 + TIMEOUT` — and the fourth fire closes the transport at exactly
`t0 + (TIMEOUT + TIMEOUT_HEARTBEAT)`, which lies in the window
`[t0 + TIMEOUT, t0 + TIMEOUT + TIMEOUT_HEARTBEAT]`. -/
theorem idle_timeout_window (t0 : Nat) (cmd : String) (tr : Transport)
    (hO : tr.openOk = true) (hS : tr.sendOk = true) :
    runIdleChain ((send_command (mkController t0 false tr).1 t0 cmd tr).1) 3
      = none ∧
    runIdleChain ((send_command (mkController t0 false tr).1 t0 cmd tr).1) 4
      = some (t0 + (TIMEOUT + TIMEOUT_HEARTBEAT)) ∧
    t0 + TIMEOUT ≤ t0 + (TIMEOUT + TIMEOUT_HEARTBEAT) ∧
    t0 + (TIMEOUT + TIMEOUT_HEARTBEAT) ≤ t0 + TIMEOUT + TIMEOUT_HEARTBEAT := by
  have hsent : (send_command (mkController t0 false tr).1 t0 cmd tr).1 =
      ⟨true, t0, some 0, [⟨0, t0 + 20, none⟩], 1⟩ := by
    simp [mkController, send_command, connect, timeout, effSeconds, hO, hS,
      TIMEOUT, TIMEOUT_HEARTBEAT]
  rw [hsent]
  refine ⟨?_, ?_, by omega, by omega⟩ <;>
    simp [runIdleChain, armedTimer, fireTimerRec, timeout, effSeconds, close,
      TIMEOUT, TIMEOUT_HEARTBEAT, Nat.add_assoc]

/-- C2 witness: the scenario at `t0 = 0` — no close through t = 60, close at
t = 80. -/
theorem idle_timeout_window_witness :
    trOK.openOk = true ∧ trOK.sendOk = true ∧
    runIdleChain ((send_command (mkController 0 false trOK).1 0 "X" trOK).1) 3
      = none ∧
    runIdleChain ((send_command (mkController 0 false trOK).1 0 "X" trOK).1) 4
      = some (0 + (TIMEOUT + TIMEOUT_HEARTBEAT)) :=
  ⟨rfl, rfl, (idle_timeout_window 0 "X" trOK rfl rfl).1,
   (idle_timeout_window 0 "X" trOK rfl rfl).2.1⟩

/-- C3: after any number of consecutive successful sends on a guardian that
connected at `t0` (with no idle-check firing in between), exactly one
idle-check timer remains scheduled — the one armed at connect time; timers
never accumulate. -/
theorem single_timer_invariant (t0 : Nat) (tr : Transport)
    (hO : tr.openOk = true) (hS : tr.sendOk = true)
    (cmds : List (Nat × String)) :
    (sendMany (mkController t0 true tr).1 tr cmds).live_timers.length = 1 ∧
    armedTimer (sendMany (mkController t0 true tr).1 tr cmds) =
      some ⟨0, t0 + TIMEOUT_HEARTBEAT, none⟩ := by
  have hmk : (mkController t0 true tr).1 =
      { is_connected := true, last_command_at := t0, timeout_timer := some 0,
        live_timers := [⟨0, t0 + TIMEOUT_HEARTBEAT, none⟩],
        next_timer_id := 1 } := by
    simp [mkController, connect, timeout, effSeconds, hO]
  rw [hmk]
  have hpres := sendMany_preserves tr hS cmds
    { is_connected := true, last_command_at := t0, timeout_timer := some 0,
      live_timers := [⟨0, t0 + TIMEOUT_HEARTBEAT, none⟩],
      next_timer_id := 1 } rfl
  constructor
  · rw [hpres.2.1]
    rfl
  · rw [armedTimer, hpres.2.2, hpres.2.1]
    rfl

/-- C3 witness: three consecutive sends leave exactly one scheduled timer. -/
theorem single_timer_invariant_witness :
    trOK.openOk = true ∧ trOK.sendOk = true ∧
    (sendMany (mkController 0 true trOK).1 trOK
      [(5, "A"), (10, "B"), (15, "C")]).live_timers.length = 1 :=
  ⟨rfl, rfl,
   (single_timer_invariant 0 trOK rfl rfl [(5, "A"), (10, "B"), (15, "C")]).1⟩

/-- C4 counterexample: the claim says a failed send leaves the guardian's
state — including the last-activity timestamp — as it was before the call.
In the source, `_send_command` assigns `last_command_at` before forwarding,
so after a failed send at t = 5 on a guardian whose previous activity was at
t = 0 the timestamp is 5, not 0. -/
theorem send_fail_updates_timestamp :
    sOpen0.is_connected = true ∧ sOpen0.last_command_at = 0 ∧
    (send_command sOpen0 5 "X" trSendFail).2.2
      = Except.error Err.CommandFailed ∧
    ((send_command sOpen0 5 "X" trSendFail).1).last_command_at = 5 :=
  ⟨rfl, rfl, rfl, rfl⟩

/-- C4 amended: if the transport send fails on a guardian that was believed
open, the failure propagates as CommandFailed, and the scheduled idle-check,
the timer attribute and every other guardian field are unchanged — except
that the last-activity timestamp has been updated to the time of the failed
send, and the openness flag is whatever the failure produced. -/
theorem send_fail_propagates (s : Ctrl) (now : Nat) (cmd : String)
    (tr : Transport) (hc : s.is_connected = true) (hS : tr.sendOk = false) :
    send_command s now cmd tr =
      ({ s with last_command_at := now, is_connected := tr.failLeavesOpen },
       [Ev.tSend cmd], Except.error Err.CommandFailed) := by
  simp [send_command, hc, hS]

/-- C4 witness: the amended statement at a concrete failing send. -/
theorem send_fail_propagates_witness :
    sOpen0.is_connected = true ∧ trSendFail.sendOk = false ∧
    send_command sOpen0 5 "X" trSendFail =
      ({ sOpen0 with last_command_at := 5, is_connected := trSendFail.failLeavesOpen },
       [Ev.tSend "X"], Except.error Err.CommandFailed) :=
  ⟨rfl, rfl, send_fail_propagates sOpen0 5 "X" trSendFail rfl rfl⟩

/-- C5: a successful send at time `now`, within TIMEOUT of the previous
activity, resets `last_command_at` to `now`; consequently an idle-check
firing at or before `now + TIMEOUT_HEARTBEAT` (with the default argument the
source always schedules) does not close the transport. -/
theorem send_resets_idle_clock (s : Ctrl) (now : Nat) (cmd : String)
    (tr : Transport) (r : TimerRec)
    (hc : s.is_connected = true) (hS : tr.sendOk = true)
    (hprev : now < s.last_command_at + TIMEOUT)
    (hr : r.secondsArg = none) (hf : r.fireAt ≤ now + TIMEOUT_HEARTBEAT) :
    ((send_command s now cmd tr).1).last_command_at = now ∧
    ((fireTimerRec (send_command s now cmd tr).1 r).1).is_connected = true := by
  have hs1 : (send_command s now cmd tr).1 = { s with last_command_at := now } := by
    simp [send_command, hc, hS]
  have hlt : ¬ now + TIMEOUT < r.fireAt := by
    simp only [TIMEOUT, TIMEOUT_HEARTBEAT] at *
    omega
  rw [hs1]
  refine ⟨rfl, ?_⟩
  simp [fireTimerRec, timeout, hr, effSeconds, hc, Nat.not_lt.mp, hlt]

/-- C5 witness: a send at t = 50 (previous activity t = 0) keeps the
transport open through the idle-check at t = 20 + heartbeat ≤ 70. -/
theorem send_resets_idle_clock_witness :
    sOpen0.is_connected = true ∧ trOK.sendOk = true ∧
    (50 : Nat) < sOpen0.last_command_at + TIMEOUT ∧
    (TimerRec.mk 0 20 none).secondsArg = none ∧
    (TimerRec.mk 0 20 none).fireAt ≤ 50 + TIMEOUT_HEARTBEAT ∧
    ((send_command sOpen0 50 "Y" trOK).1).last_command_at = 50 ∧
    ((fireTimerRec (send_command sOpen0 50 "Y" trOK).1
        (TimerRec.mk 0 20 none)).1).is_connected = true := by
  refine ⟨rfl, rfl, by decide, rfl, by decide, ?_, ?_⟩
  · exact (send_resets_idle_clock sOpen0 50 "Y" trOK (TimerRec.mk 0 20 none)
      rfl rfl (by decide) rfl (by decide)).1
  · exact (send_resets_idle_clock sOpen0 50 "Y" trOK (TimerRec.mk 0 20 none)
      rfl rfl (by decide) rfl (by decide)).2

/-- C6: `close()` twice in a row leaves the transport closed after each call
(the model is a total function, so no error is raised), and on a guardian
whose `_timeout_timer` attribute was never set — for instance because open
failed before any timer was armed — `close()` only clears the openness flag:
cancelling the non-existent timer is a swallowed AttributeError. -/
theorem close_twice (s : Ctrl) :
    ((close s).1).is_connected = false ∧
    ((close (close s).1).1).is_connected = false ∧
    (s.timeout_timer = none →
      close s = ({ s with is_connected := false }, [Ev.tClose])) := by
  refine ⟨?_, ?_, ?_⟩
  · cases h : s.timeout_timer <;> simp [close, h]
  · cases h : s.timeout_timer <;> simp [close, h]
  · intro h; simp [close, h]

/-- C6 witness: double close on a guardian that never armed a timer. -/
theorem close_twice_witness :
    ((close sClosed0).1).is_connected = false ∧
    ((close (close sClosed0).1).1).is_connected = false ∧
    close sClosed0 = ({ sClosed0 with is_connected := false }, [Ev.tClose]) :=
  ⟨(close_twice sClosed0).1, (close_twice sClosed0).2.1,
   (close_twice sClosed0).2.2 rfl⟩

/-- C7: when the transport open fails, `connect` surfaces ConnectionFailed
unmodified, leaves the guardian state exactly as it was (in particular no
idle-check timer is armed), and the event trace shows a single open attempt
— no internal retry. -/
theorem connect_fail_surfaced (s : Ctrl) (now : Nat) (tr : Transport)
    (hO : tr.openOk = false) :
    connect s now tr = (s, [Ev.tOpen], Except.error Err.ConnectionFailed) := by
  simp [connect, hO]

/-- C7 witness: a failing connect at a concrete state. -/
theorem connect_fail_surfaced_witness :
    trOpenFail.openOk = false ∧
    connect sClosed0 0 trOpenFail =
      (sClosed0, [Ev.tOpen], Except.error Err.ConnectionFailed) :=
  ⟨rfl, connect_fail_surfaced sClosed0 0 trOpenFail rfl⟩

/-- C8: when `timeout` is invoked with an explicit non-default, non-falsy
`seconds = k` and does not close, the timer it arms stores no argument, so
the rescheduled check closes the transport precisely when its fire time is
past `last_command_at + TIMEOUT` — the default, not the caller's `k`. -/
theorem timeout_rearm_uses_default (s : Ctrl) (now k : Nat)
    (hc : s.is_connected = true) (hk0 : k ≠ 0) (hkT : k ≠ TIMEOUT)
    (hno : ¬ now > s.last_command_at + k) :
    (timeout s now (some k)).1 =
      { s with
          timeout_timer := some s.next_timer_id,
          live_timers :=
            ⟨s.next_timer_id, now + TIMEOUT_HEARTBEAT, none⟩ :: s.live_timers,
          next_timer_id := s.next_timer_id + 1 } ∧
    armedTimer (timeout s now (some k)).1 =
      some ⟨s.next_timer_id, now + TIMEOUT_HEARTBEAT, none⟩ ∧
    (((fireTimerRec (timeout s now (some k)).1
        ⟨s.next_timer_id, now + TIMEOUT_HEARTBEAT, none⟩).1).is_connected
          = false ↔
      s.last_command_at + TIMEOUT < now + TIMEOUT_HEARTBEAT) := by
  have heff : effSeconds (some k) = k := effSeconds_pos k hk0
  have harm : (timeout s now (some k)).1 =
      { s with
          timeout_timer := some s.next_timer_id,
          live_timers :=
            ⟨s.next_timer_id, now + TIMEOUT_HEARTBEAT, none⟩ :: s.live_timers,
          next_timer_id := s.next_timer_id + 1 } := by
    simp [timeout, heff, hno]
  refine ⟨harm, ?_, ?_⟩
  · rw [harm]; simp [armedTimer]
  · rw [harm]
    by_cases hfire : s.last_command_at + TIMEOUT < now + TIMEOUT_HEARTBEAT
    · simp [fireTimerRec, timeout, effSeconds, close, hfire]
    · simp [fireTimerRec, timeout, effSeconds, hfire, hc]

/-- C8 witness: a custom 30-second check at t = 10 re-arms a default-argument
check, which evaluates against TIMEOUT = 60. -/
theorem timeout_rearm_uses_default_witness :
    sOpen0.is_connected = true ∧ (30 : Nat) ≠ 0 ∧ (30 : Nat) ≠ TIMEOUT ∧
    ¬ (10 : Nat) > sOpen0.last_command_at + 30 ∧
    armedTimer (timeout sOpen0 10 (some 30)).1 =
      some ⟨sOpen0.next_timer_id, 10 + TIMEOUT_HEARTBEAT, none⟩ ∧
    (((fireTimerRec (timeout sOpen0 10 (some 30)).1
        ⟨sOpen0.next_timer_id, 10 + TIMEOUT_HEARTBEAT, none⟩).1).is_connected
          = false ↔
      sOpen0.last_command_at + TIMEOUT < 10 + TIMEOUT_HEARTBEAT) := by
  refine ⟨rfl, by decide, by decide, by decide, ?_, ?_⟩
  · exact (timeout_rearm_uses_default sOpen0 10 30 rfl (by decide) (by decide)
      (by decide)).2.1
  · exact (timeout_rearm_uses_default sOpen0 10 30 rfl (by decide) (by decide)
      (by decide)).2.2

/-- C9: calling `timeout` with `seconds = 0` is literally the same operation
as calling it with no argument — Python falsiness replaces 0 by TIMEOUT —
and in particular it does not force an immediate close of a connection whose
last activity lies within TIMEOUT of now. -/
theorem timeout_zero_default (s : Ctrl) (now : Nat) :
    timeout s now (some 0) = timeout s now none ∧
    (s.is_connected = true → now ≤ s.last_command_at + TIMEOUT →
      ((timeout s now (some 0)).1).is_connected = true) := by
  constructor
  · rfl
  · intro hc h
    simp [timeout, effSeconds, Nat.not_lt.mpr h, hc]

/-- C9 witness: `seconds = 0` at t = 30 on an active connection: identical to
the default call, and the connection stays open. -/
theorem timeout_zero_default_witness :
    timeout sOpen0 30 (some 0) = timeout sOpen0 30 none ∧
    ((timeout sOpen0 30 (some 0)).1).is_connected = true :=
  ⟨(timeout_zero_default sOpen0 30).1,
   (timeout_zero_default sOpen0 30).2 rfl (by decide)⟩

/-- C10: `__init__` assigns `last_command_at` before the base-class init runs
any connection attempt, so the timestamp equals the construction time for
every guardian — constructed with `connect=False`, with a failing connect,
or with a successful connect (which re-assigns the same instant). -/
theorem init_last_command_at (now : Nat) (c : Bool) (tr : Transport) :
    ((mkController now c tr).1).last_command_at = now := by
  cases c <;> by_cases hO : tr.openOk <;>
    simp [mkController, connect, timeout, effSeconds, hO]

end PyCirculate
